import Mathlib

/-!
Verification of the panel-layout and border-compositing slice of the
`television` terminal UI (files `src/television/screen/layout_ext.rs`,
`input.rs`, `merged_input_results.rs`, `results.rs`).

The Rust code is shallowly embedded: `u16` values become `Nat` with
explicit bound checks where the source performs checked / saturating
arithmetic, fallible paths (`anyhow::Result`, debug-build arithmetic
panics, `u16::try_from` failures) become `Option`, and every call to
the terminal frame sink (`render_widget`, `set_cursor_position`, ...)
becomes an explicit `DrawCmd` in the returned command list, in source
order.  `Option.none` in a renderer's result models an aborted draw
(an error return or a panic); `some cmds` models a successful return
that issued exactly `cmds`.
-/

namespace Television

/-- `u16::MAX`, the terminal's native coordinate bound. -/
def u16Max : Nat := 65535

/-- ratatui `Rect`: integer x, y, width, height in character cells.
The modern ratatui constructor stores the fields verbatim. -/
structure Rect where
  x : Nat
  y : Nat
  width : Nat
  height : Nat
deriving DecidableEq, Repr

/-- ratatui `Rect::area`: width times height. -/
def Rect.area (r : Rect) : Nat := r.width * r.height

/-- `outer.contains r`: the rectangle `r` lies entirely inside `outer`. -/
def Rect.contains (outer r : Rect) : Prop :=
  outer.x ≤ r.x ∧ outer.y ≤ r.y ∧
  r.x + r.width ≤ outer.x + outer.width ∧
  r.y + r.height ≤ outer.y + outer.height

instance (outer r : Rect) : Decidable (outer.contains r) :=
  inferInstanceAs (Decidable (_ ∧ _ ∧ _ ∧ _))

/-- Config `Padding`: non-negative cell counts on each side. -/
structure Padding where
  top : Nat
  bottom : Nat
  left : Nat
  right : Nat
deriving DecidableEq, Repr

/-- `InputPosition` from `screen/layout.rs`: whether the input bar sits
above or below the results list. -/
inductive InputPosition
  | Top
  | Bottom
deriving DecidableEq, Repr

/-- Boolean discriminator for `InputPosition`. -/
def InputPosition.isTop : InputPosition → Bool
  | .Top => true
  | .Bottom => false

/-- ratatui layout `Constraint` (the variants this slice uses). -/
inductive Constraint
  | Length (n : Nat)
  | Fill (w : Nat)
  | Percentage (p : Nat)
  | Min (n : Nat)
deriving DecidableEq, Repr

/-- Checked `u16` addition: `a + b`, or `Option.none` on overflow
(a debug-build panic in the Rust source). -/
def u16Add (a b : Nat) : Option Nat :=
  if a + b ≤ u16Max then some (a + b) else Option.none

/-- Checked `u16` subtraction: `a - b`, or `Option.none` on underflow
(a debug-build panic in the Rust source). -/
def u16Sub (a b : Nat) : Option Nat :=
  if b ≤ a then some (a - b) else Option.none

/-- `u16::saturating_add`. -/
def u16SatAdd (a b : Nat) : Nat := min (a + b) u16Max

/-- `u16::try_from` on an unsigned value: `Option.none` when the value
does not fit (surfacing as an `Err` via `?`, or a panic via `expect`). -/
def u16TryFrom (n : Nat) : Option Nat :=
  if n ≤ u16Max then some n else Option.none

/-- `layout_ext.rs::portrait_merged_constraints`: portrait-mode region
constraints when `merge_input_and_results` is enabled.  Returns
`(constraints, input_idx, results_idx, preview_idx)`, with `input_idx`
set equal to `results_idx`. -/
def portrait_merged_constraints (inputPosition : InputPosition)
    (previewHidden : Bool) : List Constraint × Nat × Nat × Option Nat :=
  match inputPosition, previewHidden with
  | .Top, true => ([Constraint.Fill 1], 0, 0, Option.none)
  | .Top, false =>
      ([Constraint.Percentage 100, Constraint.Percentage 0], 0, 0, some 1)
  | .Bottom, true => ([Constraint.Fill 1], 0, 0, Option.none)
  | .Bottom, false =>
      ([Constraint.Percentage 0, Constraint.Percentage 100], 1, 1, some 0)

/-- Modelled from the spec: the fixed number of cells a single
constraint asks of a source extent `total` under the external ratatui
splitter ("a split takes an ordered Constraint sequence and a source
Rect, deterministically producing an ordered Rect sequence that exactly
tiles the source"); a `Fill` region asks nothing fixed and receives the
remainder. -/
def constraintFixedSize (total : Nat) : Constraint → Nat
  | .Length n => n
  | .Percentage p => total * p / 100
  | .Min n => n
  | .Fill _ => 0

/-- Modelled from the spec: sequential size allocation of the external
ratatui splitter.  Each fixed constraint is granted its request clipped
to the space remaining; a `Fill` region receives the remainder left
over by all fixed requests (also clipped), so the produced sizes never
exceed the source extent and keep input order. -/
def allocSizes (total : Nat) : List Constraint → Nat → Nat → List Nat
  | [], _, _ => []
  | c :: rest, remaining, fillBudget =>
      match c with
      | .Fill _ =>
          min fillBudget remaining ::
            allocSizes total rest (remaining - min fillBudget remaining) 0
      | c =>
          let w := min (constraintFixedSize total c) remaining
          w :: allocSizes total rest (remaining - w) fillBudget

/-- Lay out horizontal chunk rectangles from left to right. -/
def placeRectsH (x y height : Nat) : List Nat → List Rect
  | [] => []
  | w :: rest => ⟨x, y, w, height⟩ :: placeRectsH (x + w) y height rest

/-- Lay out vertical chunk rectangles from top to bottom. -/
def placeRectsV (x y width : Nat) : List Nat → List Rect
  | [] => []
  | h :: rest => ⟨x, y, width, h⟩ :: placeRectsV x (y + h) width rest

/-- Modelled from the spec: the external ratatui horizontal split. -/
def splitRectsH (src : Rect) (cs : List Constraint) : List Rect :=
  placeRectsH src.x src.y src.height
    (allocSizes src.width cs src.width
      (src.width - ((cs.map (constraintFixedSize src.width)).sum)))

/-- Modelled from the spec: the external ratatui vertical split. -/
def splitRectsV (src : Rect) (cs : List Constraint) : List Rect :=
  placeRectsV src.x src.y src.width
    (allocSizes src.height cs src.height
      (src.height - ((cs.map (constraintFixedSize src.height)).sum)))

/-- `layout_ext.rs::merge_input_results_rects`: combine the input and
results rects into `(Rect::default(), bounding rect)`.  The `x + width`
and `y + height` sums are plain `u16` additions (checked here); the two
final subtractions are `saturating_sub`, which `Nat` subtraction
matches. -/
def mergeInputResultsRects (input results : Rect) : Option (Rect × Rect) :=
  match u16Add input.x input.width, u16Add input.y input.height,
        u16Add results.x results.width, u16Add results.y results.height with
  | some ir, some ib, some rr, some rb =>
      let minX := min input.x results.x
      let minY := min input.y results.y
      let maxX := max ir rr
      let maxY := max ib rb
      some (⟨0, 0, 0, 0⟩, ⟨minX, minY, maxX - minX, maxY - minY⟩)
  | _, _, _, _ => Option.none

/-- ratatui `BorderType` (the argument of `draw_shared_border`). -/
inductive RBorderType
  | Plain
  | Rounded
  | Double
  | Thick
  | QuadrantInside
  | QuadrantOutside
deriving DecidableEq, Repr

/-- Config `BorderType` (spec `BorderStyle`): the four glyph styles plus
the border-less style. -/
inductive BorderStyle
  | NoBorder
  | Plain
  | Rounded
  | Double
  | Thick
deriving DecidableEq, Repr

/-- `config::ui::BorderType::to_ratatui_border_type`: the border-less
style maps to no ratatui border type. -/
def BorderStyle.toRatatuiBorderType : BorderStyle → Option RBorderType
  | .NoBorder => Option.none
  | .Plain => some RBorderType.Plain
  | .Rounded => some RBorderType.Rounded
  | .Double => some RBorderType.Double
  | .Thick => some RBorderType.Thick

/-- The fields of `ratatui::symbols::border::Set` read by
`draw_shared_border`; each glyph is a single character. -/
structure BorderGlyphSet where
  vertical_left : Char
  vertical_right : Char
  horizontal_top : Char
  horizontal_bottom : Char
deriving DecidableEq, Repr

/-- `symbols::border::PLAIN`. -/
def plainBorderSet : BorderGlyphSet := ⟨'│', '│', '─', '─'⟩

/-- `symbols::border::ROUNDED` (same edge glyphs as plain). -/
def roundedBorderSet : BorderGlyphSet := ⟨'│', '│', '─', '─'⟩

/-- `symbols::border::DOUBLE`. -/
def doubleBorderSet : BorderGlyphSet := ⟨'║', '║', '═', '═'⟩

/-- `symbols::border::THICK`. -/
def thickBorderSet : BorderGlyphSet := ⟨'┃', '┃', '━', '━'⟩

/-- The `match border_type` table at the top of `draw_shared_border`:
only the four line styles carry a glyph set; any other style makes the
painter return at once. -/
def borderGlyphs : RBorderType → Option BorderGlyphSet
  | .Plain => some plainBorderSet
  | .Rounded => some roundedBorderSet
  | .Double => some doubleBorderSet
  | .Thick => some thickBorderSet
  | _ => Option.none

/-- The fill glyph `draw_shared_border` picks for the shared row:
`horizontal_top` when the input sits above, `horizontal_bottom` when it
sits below. -/
def sharedFillChar (bs : BorderGlyphSet) : InputPosition → Char
  | .Top => bs.horizontal_top
  | .Bottom => bs.horizontal_bottom

/-- The border-line composition of `draw_shared_border`
(`results.rs` lines 187-223): left junction glyph, then either the
centered `" label "` text padded with fill glyphs (when a non-empty
label fits the interior width) or a plain fill run, then the right
junction glyph.  `chars().count()` is the length of the character
list; `saturating_sub` is `Nat` subtraction. -/
def composeBorderLine (leftChar fillChar rightChar : Char) (width : Nat)
    (header : Option String) : List Char :=
  let available := width - 2
  let middle : List Char :=
    match header with
    | some h =>
        if h = "" then List.replicate available fillChar
        else
          let headerText : List Char := ' ' :: h.data ++ [' ']
          if headerText.length ≤ available then
            let leftPad := (available - headerText.length) / 2
            let rightPad := available - headerText.length - leftPad
            List.replicate leftPad fillChar ++ headerText ++
              List.replicate rightPad fillChar
          else
            List.replicate available fillChar
    | Option.none => List.replicate available fillChar
  leftChar :: middle ++ [rightChar]

/-- One call to the terminal frame sink, in source order.  A draw
function's result `some cmds` models a successful return that issued
exactly `cmds`; `Option.none` models an aborted call (error or panic). -/
inductive DrawCmd
  | blockCmd (area : Rect) (title : Option String)
  | textCmd (area : Rect) (content : List Char)
  | paragraphCmd (area : Rect) (content : String)
  | statefulListCmd (area : Rect) (entryCount contentWidth : Nat)
  | spinnerCmd (area : Rect)
  | styledLine (area : Rect) (content : List Char)
  | setCursor (x : Nat) (y : Nat)
deriving DecidableEq, Repr

/-- The target-row computation of `results.rs::draw_shared_border`:
`rect.y` when the input is above, `rect.y + rect.height - 1` (plain
`u16` arithmetic, so it can overflow or underflow) when it is below.
In the source this runs before the `width < 2` guard. -/
def sharedBorderRow (rect : Rect) : InputPosition → Option Nat
  | .Top => some rect.y
  | .Bottom =>
      match u16Add rect.y rect.height with
      | Option.none => Option.none
      | some s => u16Sub s 1

/-- `results.rs::draw_shared_border` continued: after resolving the
glyph set and the row, skip when `rect.width < 2`, else overwrite the
row with the composed border line. -/
def drawSharedBorder (rect : Rect) (pos : InputPosition)
    (bt : RBorderType) (header : Option String) :
    Option (List DrawCmd) :=
  match borderGlyphs bt with
  | Option.none => some []
  | some bs =>
      match sharedBorderRow rect pos with
      | Option.none => Option.none
      | some y =>
          if rect.width < 2 then some []
          else
            some [DrawCmd.styledLine ⟨rect.x, y, rect.width, 1⟩
              (composeBorderLine bs.vertical_left (sharedFillChar bs pos)
                bs.vertical_right rect.width header)]

/-- Helper: the composed border line always has exactly `width`
characters once `width ≥ 2`. -/
theorem composeBorderLine_length_aux (lc fc rc : Char) (width : Nat)
    (header : Option String) (hw : 2 ≤ width) :
    (composeBorderLine lc fc rc width header).length = width := by
  unfold composeBorderLine
  rcases header with _ | h
  · simp only [List.length_cons, List.length_append,
      List.length_replicate, List.length_nil]
    omega
  · by_cases hh : h = ""
    · subst hh
      show (lc :: List.replicate (width - 2) fc ++ [rc]).length = width
      simp only [List.length_cons, List.length_append,
        List.length_replicate, List.length_nil]
      omega
    · simp only [if_neg hh]
      by_cases hfit : (' ' :: h.data ++ [' ']).length ≤ width - 2
      · rw [if_pos hfit]
        simp only [List.length_cons, List.length_append,
          List.length_replicate, List.length_nil] at hfit ⊢
        omega
      · rw [if_neg hfit]
        simp only [List.length_cons, List.length_append,
          List.length_replicate, List.length_nil] at hfit ⊢
        omega

/-- Claim C6: for each of the four line styles and any target width of
at least 2, the shared-border line composed by `draw_shared_border`
(left junction, middle, right junction) has character count exactly
equal to the target width, with or without an embedded label. -/
theorem sharedBorderLine_length (bt : RBorderType) (bs : BorderGlyphSet)
    (pos : InputPosition) (width : Nat) (header : Option String)
    (hstyle : bt = RBorderType.Plain ∨ bt = RBorderType.Rounded ∨
      bt = RBorderType.Double ∨ bt = RBorderType.Thick)
    (hset : borderGlyphs bt = some bs) (hw : 2 ≤ width) :
    (composeBorderLine bs.vertical_left (sharedFillChar bs pos)
      bs.vertical_right width header).length = width :=
  composeBorderLine_length_aux _ _ _ width header hw

/-- Claim C6 (witness): plain style, width 20, label `"Files"` — the
spec's worked example. -/
theorem sharedBorderLine_length_witness :
    borderGlyphs RBorderType.Plain = some plainBorderSet
    ∧ (2 : Nat) ≤ 20
    ∧ (composeBorderLine plainBorderSet.vertical_left
        (sharedFillChar plainBorderSet InputPosition.Top)
        plainBorderSet.vertical_right 20 (some "Files")).length = 20 :=
  ⟨rfl, by decide,
   sharedBorderLine_length RBorderType.Plain plainBorderSet
     InputPosition.Top 20 (some "Files") (Or.inl rfl) rfl (by decide)⟩

/-- Claim C7: a label is embedded exactly when it is present, non-empty
and its rendered width (character count plus two padding spaces) fits
the interior width (total minus the two junction glyphs); when it is
embedded the line is the left junction, `(avail - len) / 2` fill glyphs
(the smaller half of an odd leftover), the padded label, the remaining
fill glyphs, and the right junction; in every other case the row is a
plain fill line between the two junction glyphs. -/
theorem composeBorderLine_embed (lc fc rc : Char) (width : Nat)
    (header : Option String) (hw : 2 ≤ width) :
    (∀ h : String, header = some h → h ≠ "" →
      h.data.length + 2 ≤ width - 2 →
      composeBorderLine lc fc rc width header =
        lc :: (List.replicate ((width - 2 - (h.data.length + 2)) / 2) fc
          ++ (' ' :: h.data ++ [' '])
          ++ List.replicate (width - 2 - (h.data.length + 2) -
              (width - 2 - (h.data.length + 2)) / 2) fc) ++ [rc]
      ∧ (width - 2 - (h.data.length + 2)) / 2 ≤
          width - 2 - (h.data.length + 2) -
            (width - 2 - (h.data.length + 2)) / 2)
    ∧ (header = Option.none →
        composeBorderLine lc fc rc width header =
          lc :: List.replicate (width - 2) fc ++ [rc])
    ∧ (header = some "" →
        composeBorderLine lc fc rc width header =
          lc :: List.replicate (width - 2) fc ++ [rc])
    ∧ (∀ h : String, header = some h →
        ¬ (h.data.length + 2 ≤ width - 2) →
        composeBorderLine lc fc rc width header =
          lc :: List.replicate (width - 2) fc ++ [rc]) := by
  refine ⟨?_, ?_, ?_, ?_⟩
  · intro h hh hne hfit
    subst hh
    have hlen : (' ' :: h.data ++ [' ']).length = h.data.length + 2 := by
      simp
    constructor
    · unfold composeBorderLine
      simp only [if_neg hne, hlen, if_pos (hlen ▸ (by omega :
        (' ' :: h.data ++ [' ']).length ≤ width - 2))]
    · omega
  · intro hh
    subst hh
    rfl
  · intro hh
    subst hh
    rfl
  · intro h hh hbig
    subst hh
    by_cases hne : h = ""
    · subst hne
      rfl
    · have hlen : (' ' :: h.data ++ [' ']).length = h.data.length + 2 := by
        simp
      unfold composeBorderLine
      simp only [if_neg hne, if_neg (by omega : ¬ (' ' :: h.data ++
        [' ']).length ≤ width - 2)]

/-- Claim C7 (witness): label `"Files"` in a width-20 row: 5 fill
glyphs, `" Files "`, 6 fill glyphs, with the smaller padding on the
left. -/
theorem composeBorderLine_embed_witness :
    composeBorderLine '│' '─' '│' 20 (some "Files") =
      '│' :: (List.replicate 5 '─' ++ (' ' :: "Files".data ++ [' '])
        ++ List.replicate 6 '─') ++ ['│']
    ∧ (5 : Nat) ≤ 6 :=
  (composeBorderLine_embed '│' '─' '│' 20 (some "Files")
    (by decide)).1 "Files" rfl (by decide) (by decide)

/-- Claim C8 (counterexample): for the degenerate rect
`(x 0, y 0, width 0, height 0)` with the input at the bottom, the row
computation `rect.y + rect.height - 1` underflows `u16` before the
`width < 2` guard runs, so the painter panics (in a debug build)
instead of returning without drawing. -/
theorem drawSharedBorder_bottom_underflow :
    (⟨0, 0, 0, 0⟩ : Rect).width < 2
    ∧ drawSharedBorder ⟨0, 0, 0, 0⟩ InputPosition.Bottom
        RBorderType.Plain Option.none = Option.none := by decide

/-- Claim C8 (amended): for every target rect with width < 2 and every
style and header, `draw_shared_border` returns without drawing, provided
that when the input is at the bottom the row computation
`rect.y + rect.height - 1` neither underflows nor overflows `u16`
(`1 ≤ y + height ≤ 65535`); the degenerate bottom case instead panics
on the underflow before the width guard. -/
theorem drawSharedBorder_skip_narrow (rect : Rect) (pos : InputPosition)
    (bt : RBorderType) (header : Option String)
    (hw : rect.width < 2)
    (hb : pos = InputPosition.Bottom →
      1 ≤ rect.y + rect.height ∧ rect.y + rect.height ≤ u16Max) :
    drawSharedBorder rect pos bt header = some [] := by
  have hrow : sharedBorderRow rect pos = some (match pos with
      | InputPosition.Top => rect.y
      | InputPosition.Bottom => rect.y + rect.height - 1) := by
    cases pos
    · rfl
    · have hbb := hb rfl
      simp only [sharedBorderRow, u16Add, u16Sub, if_pos hbb.2,
        if_pos hbb.1]
  cases hbt : borderGlyphs bt with
  | none => simp only [drawSharedBorder, hbt]
  | some bs => simp only [drawSharedBorder, hbt, hrow, if_pos hw]

/-- Claim C8 (witness): a width-1 rect with the input at the bottom. -/
theorem drawSharedBorder_skip_narrow_witness :
    (⟨0, 0, 1, 1⟩ : Rect).width < 2
    ∧ drawSharedBorder ⟨0, 0, 1, 1⟩ InputPosition.Bottom
        RBorderType.Plain Option.none = some [] :=
  ⟨by decide,
   drawSharedBorder_skip_narrow ⟨0, 0, 1, 1⟩ InputPosition.Bottom
     RBorderType.Plain Option.none (by decide)
     (fun _ => ⟨by decide, by decide⟩)⟩

/-- The title resolution of `input.rs::draw_input_box` (lines 53-69):
`Option.none` header falls back to the padded channel name, an empty
header yields no title, a non-empty header is padded with one space on
each side. -/
def inputBoxTitle (header : Option String) (channelName : String) :
    Option String :=
  match header with
  | some h => if h = "" then Option.none else some (" " ++ h ++ " ")
  | Option.none => some (" " ++ channelName ++ " ")

/-- The title resolution of `results.rs::draw_results_list`
(lines 46-79): when merging with the input, only an explicitly set
non-empty header produces a title; otherwise an empty header yields no
title and a missing header falls back to `" Results "`. -/
def resultsListTitle (mergeWithInput : Bool) (header : Option String) :
    Option String :=
  if mergeWithInput then
    match header with
    | some h => if h = "" then Option.none else some (" " ++ h ++ " ")
    | Option.none => Option.none
  else
    match header with
    | some h => if h = "" then Option.none else some (" " ++ h ++ " ")
    | Option.none => some " Results "

/-- The title resolution of
`merged_input_results.rs::draw_merged_input_results` (lines 58-76):
`header_text = input_header.map_or(channel_name, as_str)` and the outer
block title is always set to the padded `header_text`. -/
def mergedPanelTitle (inputHeader : Option String)
    (channelName : String) : Option String :=
  some (" " ++ (match inputHeader with
    | some v => v
    | Option.none => channelName) ++ " ")

/-- Claim C5 (counterexample): `draw_merged_input_results` with the
supplied header `Some("")` sets the outer block title to the two-space
segment `"  "` — a title segment is produced for an empty header. -/
theorem mergedPanelTitle_empty_header_segment :
    mergedPanelTitle (some "") "files" = some "  "
    ∧ mergedPanelTitle (some "") "files" ≠ Option.none := by decide

/-- Claim C5 (amended): in `draw_input_box` and `draw_results_list` an
empty supplied header produces no title segment and the defaults
(channel name, `" Results "`) appear only when the header is
`Option.none` (and for the merged-with-input results block not even
then); `draw_merged_input_results` however always produces a title
segment — the padded channel name when the header is absent and the
padded header text (the two-space segment for an empty header)
otherwise. -/
theorem headerTitle_rules (ch : String) :
    inputBoxTitle (some "") ch = Option.none
    ∧ resultsListTitle false (some "") = Option.none
    ∧ resultsListTitle true (some "") = Option.none
    ∧ inputBoxTitle Option.none ch = some (" " ++ ch ++ " ")
    ∧ resultsListTitle false Option.none = some " Results "
    ∧ resultsListTitle true Option.none = Option.none
    ∧ mergedPanelTitle Option.none ch = some (" " ++ ch ++ " ")
    ∧ mergedPanelTitle (some "") ch = some "  " :=
  ⟨rfl, rfl, rfl, rfl, rfl, rfl, rfl, rfl⟩

/-- Claim C5 (witness): the title rules at the concrete channel name
`"files"`. -/
theorem headerTitle_rules_witness :
    inputBoxTitle (some "") "files" = Option.none
    ∧ resultsListTitle false (some "") = Option.none
    ∧ resultsListTitle true (some "") = Option.none
    ∧ inputBoxTitle Option.none "files" = some " files "
    ∧ resultsListTitle false Option.none = some " Results "
    ∧ resultsListTitle true Option.none = Option.none
    ∧ mergedPanelTitle Option.none "files" = some " files "
    ∧ mergedPanelTitle (some "") "files" = some "  " :=
  headerTitle_rules "files"

/-- `u32::ilog10`: the floor of the base-10 logarithm. -/
def ilog10 (n : Nat) : Nat := Nat.log 10 n

/-- The result-counter width of `input.rs::draw_input_box`
(lines 114-118): `3 * (ilog10(max(total, 1)) + 1) + 3`. -/
def inputCounterWidth (totalCount : Nat) : Nat :=
  3 * (ilog10 (max totalCount 1) + 1) + 3

/-- `count_digits` of `merged_input_results.rs` (line 154). -/
def mergedCountDigits (totalCount : Nat) : Nat :=
  ilog10 (max totalCount 1) + 1

/-- `count_len` of `merged_input_results.rs` (line 155). -/
def mergedCounterWidth (totalCount : Nat) : Nat :=
  3 * mergedCountDigits totalCount + 3

/-- The number of decimal digits of `n` (spec-side reading of
"decimal digits"), via Mathlib's base-10 digit expansion. -/
def decimalDigits (n : Nat) : Nat := (Nat.digits 10 n).length

/-- Claim C9: for every total count representable in `u32`, the counter
width reserved by `draw_input_box` and by `draw_merged_input_results`
equals `3 * d + 3` where `d` is the number of decimal digits of
`max(total, 1)`; in particular a total of 342 reserves 12 cells. -/
theorem counterWidth_spec :
    (∀ t : Nat, t < 2 ^ 32 →
      inputCounterWidth t = 3 * decimalDigits (max t 1) + 3
      ∧ mergedCounterWidth t = 3 * decimalDigits (max t 1) + 3)
    ∧ inputCounterWidth 342 = 12 ∧ mergedCounterWidth 342 = 12 := by
  have hlog342 : Nat.log 10 342 = 2 :=
    Nat.log_eq_of_pow_le_of_lt_pow (by norm_num) (by norm_num)
  refine ⟨fun t ht => ?_, ?_, ?_⟩
  · have hone : 1 ≤ max t 1 := le_max_right t 1
    have hd : decimalDigits (max t 1) = Nat.log 10 (max t 1) + 1 :=
      Nat.digits_len 10 (max t 1) (by norm_num) (by omega)
    refine ⟨?_, ?_⟩ <;>
      simp only [inputCounterWidth, mergedCounterWidth,
        mergedCountDigits, ilog10, hd]
  · have hmax : max (342 : Nat) 1 = 342 := rfl
    simp only [inputCounterWidth, ilog10, hmax, hlog342]
  · have hmax : max (342 : Nat) 1 = 342 := rfl
    simp only [mergedCounterWidth, mergedCountDigits, ilog10, hmax,
      hlog342]

/-- Claim C9 (witness): instantiation at the spec's example
`total = 342`. -/
theorem counterWidth_spec_witness :
    (342 : Nat) < 2 ^ 32
    ∧ inputCounterWidth 342 = 3 * decimalDigits (max 342 1) + 3 :=
  ⟨by norm_num, (counterWidth_spec.1 342 (by norm_num)).1⟩

/-- The prompt-column width of `input.rs::draw_input_box`
(lines 103-110): character count of the prompt plus one (a panic via
`expect` when it exceeds `u16`), defaulting to 2 when unset. -/
def inputPromptLen (prompt : Option String) : Option Nat :=
  match prompt with
  | some p => u16TryFrom (p.data.length + 1)
  | Option.none => some 2

/-- The prompt-column width of `merged_input_results.rs` (lines
152-153): `u16::try_from(chars + 1).unwrap_or(2)`. -/
def mergedPromptLen (promptStr : String) : Nat :=
  match u16TryFrom (promptStr.data.length + 1) with
  | some n => n
  | Option.none => 2

/-- `indicator_len` of `merged_input_results.rs` (line 151): 2 while
the matcher runs, else 0. -/
def mergedIndicatorLen (matcherRunning : Bool) : Nat :=
  if matcherRunning then 2 else 0

/-- The four horizontal chunk constraints of `input.rs::draw_input_box`
(lines 99-122): prompt, input field (`Fill 1`), result counter, and a
one-cell spinner column. -/
def inputBoxChunkConstraints (promptLen counterLen : Nat) :
    List Constraint :=
  [Constraint.Length promptLen, Constraint.Fill 1,
   Constraint.Length counterLen, Constraint.Length 1]

/-- The four horizontal chunk constraints of
`merged_input_results.rs` (lines 157-165): prompt, input field, result
counter, and the loading-indicator column of width `indicator_len`. -/
def mergedInputChunkConstraints (promptLen counterLen indicatorLen : Nat) :
    List Constraint :=
  [Constraint.Length promptLen, Constraint.Fill 1,
   Constraint.Length counterLen, Constraint.Length indicatorLen]

/-- Claim C4 (counterexample): in the merged renderer with the matcher
idle, the indicator column has width 0, not 2. -/
theorem mergedIndicator_idle_width_zero :
    (mergedInputChunkConstraints 2 12 (mergedIndicatorLen false)).get? 3 =
      some (Constraint.Length 0)
    ∧ Constraint.Length 0 ≠ Constraint.Length 2 := by decide

/-- Claim C4 (amended): the busy-indicator column is always exactly one
cell in `draw_input_box`; in `draw_merged_input_results` it is two
cells while the matcher is running and zero cells otherwise. -/
theorem busyIndicatorWidths (pl cl : Nat) (running : Bool) :
    (inputBoxChunkConstraints pl cl).get? 3 = some (Constraint.Length 1)
    ∧ (mergedInputChunkConstraints pl cl
        (mergedIndicatorLen running)).get? 3 =
      some (Constraint.Length (if running then 2 else 0)) := by
  cases running <;> exact ⟨rfl, rfl⟩

/-- Claim C4 (witness): prompt width 2, counter width 12, matcher
running. -/
theorem busyIndicatorWidths_witness :
    (inputBoxChunkConstraints 2 12).get? 3 = some (Constraint.Length 1)
    ∧ (mergedInputChunkConstraints 2 12
        (mergedIndicatorLen true)).get? 3 =
      some (Constraint.Length 2) :=
  busyIndicatorWidths 2 12 true

/-- The input-field display width of both input renderers
(`input.rs` line 134, `merged_input_results.rs` line 177):
`chunk.width.max(3) - 3`, keeping two columns for borders and one for
the cursor. -/
def fieldDisplayWidth (w : Nat) : Nat := max w 3 - 3

/-- The horizontal cursor offset of both input renderers:
`visual_cursor().max(scroll) - scroll`. -/
def cursorOffsetVal (visualCursor scroll : Nat) : Nat :=
  max visualCursor scroll - scroll

/-- The terminal cursor column set by both input renderers
(`input.rs` lines 165-172, `merged_input_results.rs` lines 213-218):
`fieldRect.x.saturating_add(visual_cursor().max(scroll) - scroll)`. -/
def cursorXFrom (fieldX visualCursor scroll : Nat) : Nat :=
  u16SatAdd fieldX (cursorOffsetVal visualCursor scroll)

/-- Claim C3 (counterexample): a zero-width field rect at `x = 5` with
cursor and scroll both 0 satisfies the text-editing provider's
guarantee for the width it was given (`fieldDisplayWidth 0 = 0`), yet
the cursor column 5 does not lie in the empty interval `[5, 5 + 0)`. -/
theorem cursorX_outside_zero_width_field :
    (0 : Nat) - 0 ≤ fieldDisplayWidth 0
    ∧ cursorXFrom 5 0 0 = 5 + (0 - 0)
    ∧ ¬ cursorXFrom 5 0 0 < 5 + 0 := by decide

/-- Claim C3 (amended): whenever the field rect is non-empty
(`width ≥ 1`) and fits the `u16` coordinate space, and the provider's
guarantee holds for the width it was given, the cursor column set by
`draw_input_box` and `draw_merged_input_results` equals
`fieldRect.x + (visualCursorColumn - scrollOffset)` and lies in
`[fieldRect.x, fieldRect.x + fieldRect.width)`; a zero-width field rect
(possible while the whole interior is non-empty) instead pins the
cursor at `fieldRect.x`, outside the empty interval. -/
theorem cursorX_in_field (fr : Rect) (visualCursor scroll : Nat)
    (hs : scroll ≤ visualCursor)
    (hoff : visualCursor - scroll ≤ fieldDisplayWidth fr.width)
    (hvalid : fr.x + fr.width ≤ u16Max)
    (hw : 1 ≤ fr.width) :
    cursorXFrom fr.x visualCursor scroll =
      fr.x + (visualCursor - scroll)
    ∧ fr.x ≤ cursorXFrom fr.x visualCursor scroll
    ∧ cursorXFrom fr.x visualCursor scroll < fr.x + fr.width := by
  simp only [cursorXFrom, u16SatAdd, cursorOffsetVal,
    fieldDisplayWidth, u16Max] at *
  omega

/-- Claim C3 (witness): field rect `(x 2, width 10)`, visual cursor 4,
scroll 1: the cursor lands at column 5 inside `[2, 12)`. -/
theorem cursorX_in_field_witness :
    cursorXFrom 2 4 1 = 2 + (4 - 1)
    ∧ (2 : Nat) ≤ cursorXFrom 2 4 1
    ∧ cursorXFrom 2 4 1 < 2 + 10 :=
  cursorX_in_field ⟨2, 0, 10, 1⟩ 4 1 (by decide) (by decide)
    (by decide) (by decide)

/-- Modelled from the spec: the default prompt glyph `DEFAULT_PROMPT`
from the external config module (one character, so the default prompt
column width is 2). -/
def DEFAULT_PROMPT : String := ">"

/-- `LOADING_CHAR` of `merged_input_results.rs` (line 29). -/
def LOADING_CHAR : String := "●"

/-- The aspects of a ratatui `Block` that determine its interior:
which border sides are drawn, whether a title row is reserved on the
top or bottom edge, and the padding. -/
structure BlockConfig where
  borderLeft : Bool
  borderRight : Bool
  borderTop : Bool
  borderBottom : Bool
  titleTop : Bool
  titleBottom : Bool
  padding : Padding
deriving DecidableEq, Repr

/-- Modelled from the spec: the external ratatui `Block::inner`
(the Border/Panel Frame interior): each drawn border side takes one
cell, a title reserves its edge row even without a border there, then
the padding is applied; all subtractions saturate at zero (which `Nat`
subtraction matches). -/
def blockInner (rect : Rect) (cfg : BlockConfig) : Rect :=
  let bl := if cfg.borderLeft then 1 else 0
  let br := if cfg.borderRight then 1 else 0
  let bt := if cfg.borderTop || cfg.titleTop then 1 else 0
  let bb := if cfg.borderBottom || cfg.titleBottom then 1 else 0
  ⟨rect.x + bl + cfg.padding.left,
   rect.y + bt + cfg.padding.top,
   rect.width - bl - br - (cfg.padding.left + cfg.padding.right),
   rect.height - bt - bb - (cfg.padding.top + cfg.padding.bottom)⟩

/-- The block configuration built by `input.rs::draw_input_box`
(lines 43-89): title from the header rules on the input-position edge;
when a border style is set, all four sides unless merging with the
results, in which case the shared edge (bottom for `Top`, top for
`Bottom`) is excluded. -/
def inputBoxBlockConfig (header : Option String) (channelName : String)
    (pos : InputPosition) (padding : Padding)
    (borderStyle : BorderStyle) (mergeWithResults : Bool) : BlockConfig :=
  let title := inputBoxTitle header channelName
  let hasBorder := borderStyle.toRatatuiBorderType.isSome
  { borderLeft := hasBorder
    borderRight := hasBorder
    borderTop := hasBorder && (!mergeWithResults || pos.isTop)
    borderBottom := hasBorder && (!mergeWithResults || !pos.isTop)
    titleTop := title.isSome && pos.isTop
    titleBottom := title.isSome && !pos.isTop
    padding := padding }

/-- ` {results_count} / {total_count} ` as drawn by `draw_input_box`. -/
def inputCounterText (resultsCount totalCount : Nat) : String :=
  " " ++ toString resultsCount ++ " / " ++ toString totalCount ++ " "

/-- `input.rs::draw_input_box`: build the titled, padded, possibly
partially-bordered block; compute its interior and return at once when
the interior area is zero; otherwise render the block, split the
interior into prompt / field / counter / spinner columns, render each,
and place the cursor.  `Option.none` models the `expect` panic on an
oversized prompt and the `u16::try_from(...)?` error returns. -/
def drawInputBox (rect : Rect) (resultsCount totalCount : Nat)
    (inputValue : String) (visualScroll : Nat → Nat) (visualCursor : Nat)
    (matcherRunning : Bool) (channelName : String)
    (pos : InputPosition) (header : Option String) (padding : Padding)
    (borderStyle : BorderStyle) (prompt : Option String)
    (mergeWithResults : Bool) : Option (List DrawCmd) :=
  let title := inputBoxTitle header channelName
  let inner := blockInner rect
    (inputBoxBlockConfig header channelName pos padding borderStyle
      mergeWithResults)
  if inner.area = 0 then some []
  else
    match inputPromptLen prompt with
    | Option.none => Option.none
    | some promptLen =>
        let chunks := splitRectsH inner
          (inputBoxChunkConstraints promptLen
            (inputCounterWidth totalCount))
        let c0 := chunks.getD 0 ⟨0, 0, 0, 0⟩
        let c1 := chunks.getD 1 ⟨0, 0, 0, 0⟩
        let c2 := chunks.getD 2 ⟨0, 0, 0, 0⟩
        let c3 := chunks.getD 3 ⟨0, 0, 0, 0⟩
        let scroll := visualScroll (fieldDisplayWidth c1.width)
        match u16TryFrom scroll with
        | Option.none => Option.none
        | some _ =>
            match u16TryFrom (cursorOffsetVal visualCursor scroll) with
            | Option.none => Option.none
            | some _ =>
                some ([DrawCmd.blockCmd rect title,
                  DrawCmd.paragraphCmd c0
                    ((match prompt with
                      | some p => p
                      | Option.none => DEFAULT_PROMPT) ++ " "),
                  DrawCmd.paragraphCmd c1 inputValue] ++
                  (if matcherRunning then [DrawCmd.spinnerCmd c3]
                   else []) ++
                  [DrawCmd.paragraphCmd c2
                    (inputCounterText resultsCount totalCount),
                  DrawCmd.setCursor
                    (cursorXFrom c1.x visualCursor scroll) c1.y])

/-- The outer block configuration of
`merged_input_results.rs::draw_merged_input_results` (lines 57-83):
full border when a style is set, the always-present title on the
input-position edge, no padding. -/
def mergedOuterBlockConfig (pos : InputPosition)
    (borderStyle : BorderStyle) : BlockConfig :=
  let hasBorder := borderStyle.toRatatuiBorderType.isSome
  { borderLeft := hasBorder
    borderRight := hasBorder
    borderTop := hasBorder
    borderBottom := hasBorder
    titleTop := pos.isTop
    titleBottom := !pos.isTop
    padding := ⟨0, 0, 0, 0⟩ }

/-- A padding-only block (`Block::default().padding(p)`) as used for
the input row and results sub-regions of the merged renderer. -/
def paddingOnlyConfig (p : Padding) : BlockConfig :=
  ⟨false, false, false, false, false, false, p⟩

/-- True when any of the four padding sides is non-zero. -/
def Padding.anyNonzero (p : Padding) : Bool :=
  decide (0 < p.top) || decide (0 < p.bottom) ||
  decide (0 < p.left) || decide (0 < p.right)

/-- ` {results_count}/{total_count} ` as drawn by the merged
renderer. -/
def mergedCounterText (resultsCount totalCount : Nat) : String :=
  " " ++ toString resultsCount ++ "/" ++ toString totalCount ++ " "

/-- `merged_input_results.rs::draw_merged_input_results`: one outer
frame whose interior is split, by input position, into input row
(`1 + top padding + bottom padding` lines), a one-line separator, and
the results region; the interior-area guard returns before anything is
rendered, a zero-area padded input row returns after the outer block,
separator and pad block; otherwise the input columns are rendered, the
cursor is placed, and the results list is rendered with content width
`results_inner.width.saturating_sub(1)`. -/
def drawMergedInputResults (rect : Rect) (resultsCount totalCount : Nat)
    (inputValue : String) (visualScroll : Nat → Nat) (visualCursor : Nat)
    (matcherRunning : Bool) (channelName : String) (entryCount : Nat)
    (pos : InputPosition) (inputHeader : Option String)
    (inputPadding : Padding) (inputBorderStyle : BorderStyle)
    (inputPrompt : Option String) (resultsPadding : Padding) :
    Option (List DrawCmd) :=
  let title := mergedPanelTitle inputHeader channelName
  let inner := blockInner rect (mergedOuterBlockConfig pos inputBorderStyle)
  if inner.area = 0 then some []
  else
    let inputRowHeight := 1 + inputPadding.top + inputPadding.bottom
    let chunks :=
      match pos with
      | .Top => splitRectsV inner
          [Constraint.Length inputRowHeight, Constraint.Length 1,
           Constraint.Min 1]
      | .Bottom => splitRectsV inner
          [Constraint.Min 1, Constraint.Length 1,
           Constraint.Length inputRowHeight]
    let inputRect := match pos with
      | .Top => chunks.getD 0 ⟨0, 0, 0, 0⟩
      | .Bottom => chunks.getD 2 ⟨0, 0, 0, 0⟩
    let separatorRect := chunks.getD 1 ⟨0, 0, 0, 0⟩
    let resultsRect := match pos with
      | .Top => chunks.getD 2 ⟨0, 0, 0, 0⟩
      | .Bottom => chunks.getD 0 ⟨0, 0, 0, 0⟩
    let outerCmds := [DrawCmd.blockCmd rect title,
      DrawCmd.textCmd separatorRect
        (List.replicate separatorRect.width '─')]
    let inputPadOn := inputPadding.anyNonzero
    let inputInner := if inputPadOn then
        blockInner inputRect (paddingOnlyConfig inputPadding)
      else inputRect
    let padCmds := if inputPadOn then
        [DrawCmd.blockCmd inputRect Option.none]
      else []
    if inputInner.area = 0 then some (outerCmds ++ padCmds)
    else
      let promptStr := match inputPrompt with
        | some p => p
        | Option.none => DEFAULT_PROMPT
      let ichunks := splitRectsH inputInner
        (mergedInputChunkConstraints (mergedPromptLen promptStr)
          (mergedCounterWidth totalCount)
          (mergedIndicatorLen matcherRunning))
      let c0 := ichunks.getD 0 ⟨0, 0, 0, 0⟩
      let c1 := ichunks.getD 1 ⟨0, 0, 0, 0⟩
      let c2 := ichunks.getD 2 ⟨0, 0, 0, 0⟩
      let c3 := ichunks.getD 3 ⟨0, 0, 0, 0⟩
      let scroll := visualScroll (fieldDisplayWidth c1.width)
      match u16TryFrom scroll with
      | Option.none => Option.none
      | some _ =>
          match u16TryFrom (cursorOffsetVal visualCursor scroll) with
          | Option.none => Option.none
          | some _ =>
              let resultsPadOn := resultsPadding.anyNonzero
              let resultsInner := if resultsPadOn then
                  blockInner resultsRect (paddingOnlyConfig resultsPadding)
                else resultsRect
              let resultsPadCmds := if resultsPadOn then
                  [DrawCmd.blockCmd resultsRect Option.none]
                else []
              some (outerCmds ++ padCmds ++
                [DrawCmd.paragraphCmd c0 (promptStr ++ " "),
                 DrawCmd.paragraphCmd c1 inputValue] ++
                (if matcherRunning then [DrawCmd.paragraphCmd c3
                  LOADING_CHAR] else []) ++
                [DrawCmd.paragraphCmd c2
                  (mergedCounterText resultsCount totalCount),
                 DrawCmd.setCursor
                   (cursorXFrom c1.x visualCursor scroll) c1.y] ++
                resultsPadCmds ++
                [DrawCmd.statefulListCmd resultsInner entryCount
                  (resultsInner.width - 1)])

/-- `results.rs::draw_results_list`: build the results block with the
merge-aware title rules, hand the list builder the content width
`rect.width - 1` (a plain `u16` subtraction, which underflows when the
rect has width zero — there is no zero-interior guard in this
renderer), render the stateful list over the whole rect, and when
merging with the input overlay the shared border. -/
def drawResultsList (rect : Rect) (entryCount : Nat)
    (pos : InputPosition) (resultsPadding : Padding)
    (borderStyle : BorderStyle) (header : Option String)
    (mergeWithInput : Bool) : Option (List DrawCmd) :=
  let title := resultsListTitle mergeWithInput header
  match u16Sub rect.width 1 with
  | Option.none => Option.none
  | some contentWidth =>
      let baseCmds := [DrawCmd.blockCmd rect title,
        DrawCmd.statefulListCmd rect entryCount contentWidth]
      if mergeWithInput then
        match borderStyle.toRatatuiBorderType with
        | some bt =>
            match drawSharedBorder rect pos bt header with
            | Option.none => Option.none
            | some sb => some (baseCmds ++ sb)
        | Option.none => some baseCmds
      else some baseCmds

/-- Claim C2: `draw_input_box` returns successfully without drawing
anything whenever its computed interior has zero area. -/
theorem drawInputBox_zero_interior (rect : Rect)
    (resultsCount totalCount : Nat) (inputValue : String)
    (visualScroll : Nat → Nat) (visualCursor : Nat)
    (matcherRunning : Bool) (channelName : String) (pos : InputPosition)
    (header : Option String) (padding : Padding)
    (borderStyle : BorderStyle) (prompt : Option String)
    (mergeWithResults : Bool)
    (hz : (blockInner rect (inputBoxBlockConfig header channelName pos
      padding borderStyle mergeWithResults)).area = 0) :
    drawInputBox rect resultsCount totalCount inputValue visualScroll
      visualCursor matcherRunning channelName pos header padding
      borderStyle prompt mergeWithResults = some [] := by
  simp only [drawInputBox, if_pos hz]

/-- Claim C2 context: `draw_merged_input_results` returns successfully
without drawing anything whenever its outer interior has zero area. -/
theorem drawMergedInputResults_zero_interior (rect : Rect)
    (resultsCount totalCount : Nat) (inputValue : String)
    (visualScroll : Nat → Nat) (visualCursor : Nat)
    (matcherRunning : Bool) (channelName : String) (entryCount : Nat)
    (pos : InputPosition) (inputHeader : Option String)
    (inputPadding : Padding) (inputBorderStyle : BorderStyle)
    (inputPrompt : Option String) (resultsPadding : Padding)
    (hz : (blockInner rect
      (mergedOuterBlockConfig pos inputBorderStyle)).area = 0) :
    drawMergedInputResults rect resultsCount totalCount inputValue
      visualScroll visualCursor matcherRunning channelName entryCount
      pos inputHeader inputPadding inputBorderStyle inputPrompt
      resultsPadding = some [] := by
  simp only [drawMergedInputResults, if_pos hz]

/-- Claim C2 (code bug): `draw_results_list` has no zero-interior
guard; with a width-0 rect (interior area 0) the content-width
computation `rect.width - 1` underflows `u16` — a panic in a debug
build — instead of returning successfully without drawing, and even
for a non-zero rect it renders unconditionally.  Its siblings guard
and return `some []`, and the merged renderer computes the very same
width with `saturating_sub`. -/
theorem drawResultsList_zero_interior_bug :
    drawResultsList ⟨0, 0, 0, 5⟩ 0 InputPosition.Top ⟨0, 0, 0, 0⟩
      BorderStyle.Plain Option.none false = Option.none := by rfl

/-- Claim C1 (counterexample): with `InputPosition::Top` and the preview
visible, `portrait_merged_constraints` returns `Percentage(100)` for the
merged region and `Percentage(0)` for the preview; on a 100-cell source
those allocate 100 cells and 0 cells, which are not equal shares. -/
theorem portraitMergedConstraints_unequal_shares :
    (portrait_merged_constraints InputPosition.Top false).1 =
      [Constraint.Percentage 100, Constraint.Percentage 0]
    ∧ constraintFixedSize 100 (Constraint.Percentage 100) = 100
    ∧ constraintFixedSize 100 (Constraint.Percentage 0) = 0
    ∧ (100 : Nat) ≠ 0 := by decide

/-- Claim C1 (amended): with the preview visible the planner returns
exactly two region constraints, `Percentage(100)` for the merged region
and `Percentage(0)` for the preview, ordered (merged, preview) with the
merged region at index 0 when the input is at the top, and (preview,
merged) with the merged region at index 1 when the input is at the
bottom; the preview index points at the preview slot in both cases. -/
theorem portraitMergedConstraints_order :
    portrait_merged_constraints InputPosition.Top false =
      ([Constraint.Percentage 100, Constraint.Percentage 0], 0, 0, some 1)
    ∧ portrait_merged_constraints InputPosition.Bottom false =
      ([Constraint.Percentage 0, Constraint.Percentage 100], 1, 1, some 0) := by
  decide

/-- Claim C10: when no coordinate sum overflows `u16`,
`merge_input_results_rects` returns the zero (default) rect first and
the smallest axis-aligned bounding rectangle of the two inputs second,
so each input rect lies inside the merged rect and every rect containing
both inputs contains the merged rect. -/
theorem mergeInputResultsRects_bounding (input results : Rect)
    (h1 : input.x + input.width ≤ u16Max)
    (h2 : input.y + input.height ≤ u16Max)
    (h3 : results.x + results.width ≤ u16Max)
    (h4 : results.y + results.height ≤ u16Max) :
    ∃ merged : Rect,
      mergeInputResultsRects input results = some (⟨0, 0, 0, 0⟩, merged)
      ∧ merged.contains input ∧ merged.contains results
      ∧ ∀ r : Rect, r.contains input → r.contains results →
          r.contains merged := by
  refine ⟨⟨min input.x results.x, min input.y results.y,
      max (input.x + input.width) (results.x + results.width) -
        min input.x results.x,
      max (input.y + input.height) (results.y + results.height) -
        min input.y results.y⟩, ?_, ?_, ?_, ?_⟩
  · simp only [mergeInputResultsRects, u16Add, if_pos h1, if_pos h2,
      if_pos h3, if_pos h4]
  · simp only [Rect.contains]
    omega
  · simp only [Rect.contains]
    omega
  · intro r hin hres
    simp only [Rect.contains] at hin hres ⊢
    omega

/-- Claim C10 (witness): concrete instantiation at
`input = (0, 0, 2, 1)` and `results = (0, 1, 3, 4)`. -/
theorem mergeInputResultsRects_bounding_witness :
    ((0 : Nat) + 2 ≤ u16Max)
    ∧ (∃ merged : Rect,
        mergeInputResultsRects ⟨0, 0, 2, 1⟩ ⟨0, 1, 3, 4⟩ =
          some (⟨0, 0, 0, 0⟩, merged)
        ∧ merged.contains ⟨0, 0, 2, 1⟩ ∧ merged.contains ⟨0, 1, 3, 4⟩
        ∧ ∀ r : Rect, r.contains ⟨0, 0, 2, 1⟩ → r.contains ⟨0, 1, 3, 4⟩ →
            r.contains merged) :=
  ⟨by decide,
   mergeInputResultsRects_bounding ⟨0, 0, 2, 1⟩ ⟨0, 1, 3, 4⟩
     (by decide) (by decide) (by decide) (by decide)⟩

end Television
